import Mathlib

/-!
Verification of the session and order-correlation layer of the CTP gateway
client (src/cpp_full_implementation.cpp and the C shim layer under
src/ctp_wrapper/src/).  The C++ classes CtpTraderSpi and CtpMdSpi are
embedded as explicit state machines: each SPI object is a record of its
mutable member fields, each public method and each callback is a step
function from a state and its arguments to a new state together with the
list of wire requests handed to the vendor transport.  Wire requests are
records mirroring the CThostFtdc input structures field by field; double
valued fields carry no arithmetic in the source, so they are modelled as
rationals.  The transport itself (the vendor API object) is external: its
synchronous return codes enter the model through an oracle function.
-/

namespace CTP

/-! ## Protocol character constants (vendor header values) -/

def OPT_AnyPrice : Char := '1'

def OPT_LimitPrice : Char := '2'

def TC_IOC : Char := '1'

def TC_GFD : Char := '3'

def VC_AV : Char := '1'

def VC_CV : Char := '3'

def CC_Immediately : Char := '1'

def CC_Touch : Char := '2'

def HF_Speculation : Char := '1'

def AF_Delete : Char := '0'

def AF_Modify : Char := '3'

def FCC_NotForceClose : Char := '0'

def D_Buy : Char := '0'

def D_Sell : Char := '1'

def OF_Open : Char := '0'

/-! ## Decimal formatting of order references

The source assigns order references with sprintf of the pattern percent 012 d
applied to the incremented m_maxOrderRef counter.  We model the decimal
rendering of a machine integer with zero padding to field width 12
(a negative value keeps the sign and pads the magnitude to width 11). -/

def digitChar (d : Nat) : Char := Char.ofNat (48 + d)

def natDigitsAux : Nat → Nat → List Char
  | 0, _ => []
  | fuel + 1, n =>
      if n < 10 then [digitChar n]
      else natDigitsAux fuel (n / 10) ++ [digitChar (n % 10)]

/-- Decimal digit characters of a natural number, most significant first. -/
def natDigits (n : Nat) : List Char := natDigitsAux (n + 1) n

/-- Left pad a character list with zero characters up to width w. -/
def padZeroTo (w : Nat) (ds : List Char) : List Char :=
  List.replicate (w - ds.length) '0' ++ ds

/-- Rendering of the OrderRef field: sprintf with pattern percent 012 d. -/
def formatOrderRef (n : Int) : String :=
  if n < 0 then String.mk ('-' :: padZeroTo 11 (natDigits n.natAbs))
  else String.mk (padZeroTo 12 (natDigits n.natAbs))

/-- Numeric value of a digit character. -/
def charVal (c : Char) : Nat := c.toNat - 48

/-- Value of a digit string read most significant first. -/
def digitsVal (ds : List Char) : Nat := ds.foldl (fun a c => 10 * a + charVal c) 0

/-! ## atoi

The login handler stores atoi applied to the MaxOrderRef string of the login
response.  We model the C library atoi faithfully: skip leading white space,
read an optional sign, accumulate decimal digits until the first non digit. -/

def isSpaceChar (c : Char) : Bool :=
  c = ' ' || c = '\t' || c = '\n' || c = '\x0b' || c = '\x0c' || c = '\r'

def atoiLoop : List Char → Nat → Nat
  | [], acc => acc
  | c :: cs, acc => if c.isDigit then atoiLoop cs (10 * acc + charVal c) else acc

def atoiChars (cs : List Char) : Int :=
  match cs.dropWhile isSpaceChar with
  | '-' :: rest => -(atoiLoop rest 0 : Int)
  | '+' :: rest => (atoiLoop rest 0 : Int)
  | rest => (atoiLoop rest 0 : Int)

def atoi (s : String) : Int := atoiChars s.data

/-! ## Configuration (class CtpConfig) -/

structure CtpConfig where
  brokerID : String
  investorID : String
  password : String
  appID : String
  authCode : String
deriving DecidableEq

/-- Values set by the CtpConfig constructor. -/
def defaultConfig : CtpConfig :=
  { brokerID := "9999", investorID := "000001", password := "123456",
    appID := "simnow_client_test", authCode := "0000000000000000" }

/-! ## Wire records (CThostFtdc input and response structures)

Fields the source never assigns after the memset stay at their zero values:
empty strings, zero numbers, the zero character for flags. -/

structure ReqAuthenticateField where
  brokerID : String
  userID : String
  appID : String
  authCode : String
deriving DecidableEq

structure ReqUserLoginField where
  brokerID : String
  userID : String
  password : String
deriving DecidableEq

structure InputOrderField where
  brokerID : String
  investorID : String
  instrumentID : String
  exchangeID : String
  orderRef : String
  direction : Char
  combOffsetFlag : Char
  combHedgeFlag : Char
  limitPrice : Rat
  stopPrice : Rat
  volumeTotalOriginal : Int
  minVolume : Int
  orderPriceType : Char
  timeCondition : Char
  volumeCondition : Char
  contingentCondition : Char
  forceCloseReason : Char
  isAutoSuspend : Int
  userForceClose : Int
deriving DecidableEq

structure InputOrderActionField where
  brokerID : String
  investorID : String
  instrumentID : String
  exchangeID : String
  orderRef : String
  orderSysID : String
  frontID : Int
  sessionID : Int
  actionFlag : Char
  limitPrice : Rat
  volumeChange : Int
deriving DecidableEq

structure RspInfoField where
  errorID : Int
  errorMsg : String
deriving DecidableEq

structure RspUserLoginField where
  tradingDay : String
  loginTime : String
  brokerID : String
  userID : String
  frontID : Int
  sessionID : Int
  maxOrderRef : String
deriving DecidableEq

/-- The error test the source applies to every response: the pointer is non
null and carries a non zero ErrorID. -/
def rspHasError : Option RspInfoField → Bool
  | none => false
  | some r => r.errorID != 0

/-! ## Trader session state machine (class CtpTraderSpi)

The state is the tuple of mutable member fields of CtpTraderSpi; the api
pointer and the immutable config are factored out, the mutex only guards
console printing.  Each public method and callback becomes one branch of a
step function returning the new state and the wire requests handed to the
vendor transport during that call. -/

structure TraderState where
  requestId : Int
  isLogin : Bool
  frontId : Int
  sessionId : Int
  maxOrderRef : Int
deriving DecidableEq

/-- Member initialisation of the CtpTraderSpi constructor. -/
def initTraderState : TraderState :=
  { requestId := 0, isLogin := false, frontId := 0, sessionId := 0, maxOrderRef := 0 }

/-- A wire request handed to the vendor trader api, tagged with the request
identifier the source passed alongside it. -/
inductive TraderWire where
  | authenticate (f : ReqAuthenticateField) (requestId : Int)
  | userLogin (f : ReqUserLoginField) (requestId : Int)
  | orderInsert (f : InputOrderField) (requestId : Int)
  | orderAction (f : InputOrderActionField) (requestId : Int)
deriving DecidableEq

/-- The parameter list of CtpTraderSpi.ReqOrderInsert, default arguments
included. -/
structure InsertParams where
  instrumentID : String
  exchangeID : String
  direction : Char
  offsetFlag : Char
  price : Rat
  volume : Int
  priceType : Char
  contingentCondition : Char
  timeCondition : Char
  volumeCondition : Char
  hedgeFlag : Char
deriving DecidableEq

/-- The request record built by the body of CtpTraderSpi.ReqOrderInsert; the
ref argument is the already incremented m_maxOrderRef counter. -/
def reqOrderInsertField (cfg : CtpConfig) (ref : Int) (p : InsertParams) :
    InputOrderField :=
  { brokerID := cfg.brokerID
    investorID := cfg.investorID
    instrumentID := p.instrumentID
    exchangeID := p.exchangeID
    orderRef := formatOrderRef ref
    direction := p.direction
    combOffsetFlag := p.offsetFlag
    combHedgeFlag := p.hedgeFlag
    limitPrice := p.price
    stopPrice := 0
    volumeTotalOriginal := p.volume
    minVolume := 1
    orderPriceType := p.priceType
    timeCondition := p.timeCondition
    volumeCondition := p.volumeCondition
    contingentCondition := p.contingentCondition
    forceCloseReason := FCC_NotForceClose
    isAutoSuspend := 0
    userForceClose := 0 }

/-- The request record built by the body of CtpTraderSpi.ReqStopOrder, a
construction path of its own in the source. -/
def reqStopOrderField (cfg : CtpConfig) (ref : Int) (inst exch : String)
    (dir off : Char) (price stopPrice : Rat) (vol : Int) : InputOrderField :=
  { brokerID := cfg.brokerID
    investorID := cfg.investorID
    instrumentID := inst
    exchangeID := exch
    orderRef := formatOrderRef ref
    direction := dir
    combOffsetFlag := off
    combHedgeFlag := HF_Speculation
    limitPrice := price
    stopPrice := stopPrice
    volumeTotalOriginal := vol
    minVolume := 1
    orderPriceType := OPT_LimitPrice
    timeCondition := TC_GFD
    volumeCondition := VC_AV
    contingentCondition := CC_Touch
    forceCloseReason := FCC_NotForceClose
    isAutoSuspend := 0
    userForceClose := 0 }

/-- Entry points of CtpTraderSpi that touch the session and order layer:
caller invoked request methods and transport delivered callbacks. -/
inductive TraderEvent where
  | frontConnected
  | frontDisconnected (reason : Int)
  | rspAuthenticate (info : Option RspInfoField)
  | rspUserLogin (rsp : RspUserLoginField) (info : Option RspInfoField)
  | reqOrderInsert (p : InsertParams)
  | reqLimitOrder (inst exch : String) (dir off : Char) (price : Rat) (vol : Int)
  | reqMarketOrder (inst exch : String) (dir off : Char) (vol : Int)
  | reqFOKOrder (inst exch : String) (dir off : Char) (price : Rat) (vol : Int)
  | reqFAKOrder (inst exch : String) (dir off : Char) (price : Rat) (vol : Int)
  | reqStopOrder (inst exch : String) (dir off : Char) (price stopPrice : Rat) (vol : Int)
  | reqOrderAction (inst exch oref : String) (frontId sessionId : Int) (flag : Char)
  | reqOrderActionBySysID (sysId exch : String) (flag : Char)
  | reqOrderModify (inst exch oref : String) (frontId sessionId : Int)
      (newPrice : Rat) (newVol : Int)
deriving DecidableEq

/-- Common tail of every insert variant that funnels through
CtpTraderSpi.ReqOrderInsert: increment m_maxOrderRef, build the record,
increment m_requestId, hand the request to the transport. -/
def insertVia (cfg : CtpConfig) (s : TraderState) (p : InsertParams) :
    TraderState × List TraderWire :=
  ({ s with maxOrderRef := s.maxOrderRef + 1, requestId := s.requestId + 1 },
   [TraderWire.orderInsert (reqOrderInsertField cfg (s.maxOrderRef + 1) p)
      (s.requestId + 1)])

def traderStep (cfg : CtpConfig) (s : TraderState) :
    TraderEvent → TraderState × List TraderWire
  | .frontConnected =>
      ({ s with requestId := s.requestId + 1 },
       [TraderWire.authenticate
          { brokerID := cfg.brokerID, userID := cfg.investorID,
            appID := cfg.appID, authCode := cfg.authCode } (s.requestId + 1)])
  | .frontDisconnected _ => ({ s with isLogin := false }, [])
  | .rspAuthenticate _ =>
      ({ s with requestId := s.requestId + 1 },
       [TraderWire.userLogin
          { brokerID := cfg.brokerID, userID := cfg.investorID,
            password := cfg.password } (s.requestId + 1)])
  | .rspUserLogin rsp info =>
      if rspHasError info then (s, [])
      else
        ({ s with frontId := rsp.frontID, sessionId := rsp.sessionID,
                  maxOrderRef := atoi rsp.maxOrderRef, isLogin := true }, [])
  | .reqOrderInsert p => insertVia cfg s p
  | .reqLimitOrder inst exch dir off price vol =>
      insertVia cfg s
        { instrumentID := inst, exchangeID := exch, direction := dir,
          offsetFlag := off, price := price, volume := vol,
          priceType := OPT_LimitPrice, contingentCondition := CC_Immediately,
          timeCondition := TC_GFD, volumeCondition := VC_AV,
          hedgeFlag := HF_Speculation }
  | .reqMarketOrder inst exch dir off vol =>
      insertVia cfg s
        { instrumentID := inst, exchangeID := exch, direction := dir,
          offsetFlag := off, price := 0, volume := vol,
          priceType := OPT_AnyPrice, contingentCondition := CC_Immediately,
          timeCondition := TC_GFD, volumeCondition := VC_AV,
          hedgeFlag := HF_Speculation }
  | .reqFOKOrder inst exch dir off price vol =>
      insertVia cfg s
        { instrumentID := inst, exchangeID := exch, direction := dir,
          offsetFlag := off, price := price, volume := vol,
          priceType := OPT_LimitPrice, contingentCondition := CC_Immediately,
          timeCondition := TC_IOC, volumeCondition := VC_CV,
          hedgeFlag := HF_Speculation }
  | .reqFAKOrder inst exch dir off price vol =>
      insertVia cfg s
        { instrumentID := inst, exchangeID := exch, direction := dir,
          offsetFlag := off, price := price, volume := vol,
          priceType := OPT_LimitPrice, contingentCondition := CC_Immediately,
          timeCondition := TC_IOC, volumeCondition := VC_AV,
          hedgeFlag := HF_Speculation }
  | .reqStopOrder inst exch dir off price stopPrice vol =>
      ({ s with maxOrderRef := s.maxOrderRef + 1, requestId := s.requestId + 1 },
       [TraderWire.orderInsert
          (reqStopOrderField cfg (s.maxOrderRef + 1) inst exch dir off price
            stopPrice vol) (s.requestId + 1)])
  | .reqOrderAction inst exch oref frontId sessionId flag =>
      ({ s with requestId := s.requestId + 1 },
       [TraderWire.orderAction
          { brokerID := cfg.brokerID, investorID := cfg.investorID,
            instrumentID := inst, exchangeID := exch, orderRef := oref,
            orderSysID := "", frontID := frontId, sessionID := sessionId,
            actionFlag := flag, limitPrice := 0, volumeChange := 0 }
          (s.requestId + 1)])
  | .reqOrderActionBySysID sysId exch flag =>
      ({ s with requestId := s.requestId + 1 },
       [TraderWire.orderAction
          { brokerID := cfg.brokerID, investorID := cfg.investorID,
            instrumentID := "", exchangeID := exch, orderRef := "",
            orderSysID := sysId, frontID := 0, sessionID := 0,
            actionFlag := flag, limitPrice := 0, volumeChange := 0 }
          (s.requestId + 1)])
  | .reqOrderModify inst exch oref frontId sessionId newPrice newVol =>
      ({ s with requestId := s.requestId + 1 },
       [TraderWire.orderAction
          { brokerID := cfg.brokerID, investorID := cfg.investorID,
            instrumentID := inst, exchangeID := exch, orderRef := oref,
            orderSysID := "", frontID := frontId, sessionID := sessionId,
            actionFlag := AF_Modify, limitPrice := newPrice,
            volumeChange := newVol }
          (s.requestId + 1)])

/-- The synchronous return value the caller of a request method observes:
the vendor transport return code for the request that was handed over.
Callbacks and methods that send nothing return zero. -/
def traderInvokeRet (oracle : TraderWire → Int) (cfg : CtpConfig)
    (s : TraderState) (e : TraderEvent) : Int :=
  match (traderStep cfg s e).2 with
  | [w] => oracle w
  | _ => 0

/-- Run a sequence of entry points, collecting all wire requests. -/
def runTrader (cfg : CtpConfig) (s : TraderState) :
    List TraderEvent → TraderState × List TraderWire
  | [] => (s, [])
  | e :: es =>
      let p := traderStep cfg s e
      let q := runTrader cfg p.1 es
      (q.1, p.2 ++ q.2)

/-- Entry points that allocate a local order reference: the six order insert
variants. -/
def isInsertEvent : TraderEvent → Bool
  | .reqOrderInsert _ => true
  | .reqLimitOrder _ _ _ _ _ _ => true
  | .reqMarketOrder _ _ _ _ _ => true
  | .reqFOKOrder _ _ _ _ _ _ => true
  | .reqFAKOrder _ _ _ _ _ _ => true
  | .reqStopOrder _ _ _ _ _ _ _ => true
  | _ => false

/-- The login response callback, the only entry point that reseeds the
m_maxOrderRef counter; a sequence free of it stays within one session. -/
def isUserLoginEvent : TraderEvent → Bool
  | .rspUserLogin _ _ => true
  | _ => false

/-- The integer values of the local order references consumed by the insert
events of a run, in order of assignment. -/
def assignedOrderRefs (cfg : CtpConfig) (s : TraderState) :
    List TraderEvent → List Int
  | [] => []
  | e :: es =>
      (if isInsertEvent e then [s.maxOrderRef + 1] else []) ++
        assignedOrderRefs cfg (traderStep cfg s e).1 es

/-- The OrderRef strings carried by the order insert requests of a wire
trace. -/
def wireInsertRefs : List TraderWire → List String
  | [] => []
  | .orderInsert f _ :: ws => f.orderRef :: wireInsertRefs ws
  | _ :: ws => wireInsertRefs ws

/-- The request identifier a wire request was handed over with. -/
def traderWireId : TraderWire → Int
  | .authenticate _ i => i
  | .userLogin _ i => i
  | .orderInsert _ i => i
  | .orderAction _ i => i

/-- The request identifiers of a wire trace, in sending order. -/
def traderWireRequestIds (ws : List TraderWire) : List Int :=
  ws.map traderWireId

/-! ## Market data session state machine (class CtpMdSpi) -/

structure MdState where
  requestId : Int
  isLogin : Bool
deriving DecidableEq

/-- Member initialisation of the CtpMdSpi constructor. -/
def initMdState : MdState := { requestId := 0, isLogin := false }

/-- One instrument entry of the subscribe request array; the source fills
the exchange with the constant CME. -/
structure SpecificInstrumentField where
  instrumentID : String
  exchangeID : String
deriving DecidableEq

inductive MdWire where
  | userLogin (f : ReqUserLoginField) (requestId : Int)
  | subscribe (insts : List SpecificInstrumentField)
deriving DecidableEq

inductive MdEvent where
  | frontConnected
  | frontDisconnected (reason : Int)
  | rspUserLogin (rsp : RspUserLoginField) (info : Option RspInfoField)
  | subscribeMarketData (insts : List String)
deriving DecidableEq

/-- The instrument array CtpMdSpi.SubscribeMarketData builds: each name is
paired with the hard coded exchange CME. -/
def mdSubscribeArray (insts : List String) : List SpecificInstrumentField :=
  insts.map fun i => { instrumentID := i, exchangeID := "CME" }

def mdStep (cfg : CtpConfig) (s : MdState) : MdEvent → MdState × List MdWire
  | .frontConnected =>
      ({ s with requestId := s.requestId + 1 },
       [MdWire.userLogin
          { brokerID := cfg.brokerID, userID := cfg.investorID,
            password := cfg.password } (s.requestId + 1)])
  | .frontDisconnected _ => ({ s with isLogin := false }, [])
  | .rspUserLogin _ info =>
      if rspHasError info then (s, [])
      else ({ s with isLogin := true }, [])
  | .subscribeMarketData insts =>
      if s.isLogin then (s, [MdWire.subscribe (mdSubscribeArray insts)])
      else (s, [])

/-- The synchronous return value of CtpMdSpi.SubscribeMarketData: minus one
when not logged in, otherwise the vendor transport return code. -/
def mdSubscribeRet (oracle : MdWire → Int) (s : MdState)
    (insts : List String) : Int :=
  if s.isLogin then oracle (MdWire.subscribe (mdSubscribeArray insts))
  else -1

def runMd (cfg : CtpConfig) (s : MdState) :
    List MdEvent → MdState × List MdWire
  | [] => (s, [])
  | e :: es =>
      let p := mdStep cfg s e
      let q := runMd cfg p.1 es
      (q.1, p.2 ++ q.2)

/-- The request identifiers of a market data wire trace; the subscribe call
of the vendor api carries no request identifier. -/
def mdWireRequestIds : List MdWire → List Int
  | [] => []
  | .userLogin _ i :: ws => i :: mdWireRequestIds ws
  | .subscribe _ :: ws => mdWireRequestIds ws

/-! ## C shim layer (TraderSpiWrapper and MdSpiWrapper)

Each vendor callback of the shim reads every field through a null guarded
access (empty string or zero when the record or error pointer is null) and
invokes the registered C callback with the resulting argument tuple; an
unregistered callback drops the event.  The model returns the argument
tuple passed to the C callback, or none when no call happens.  Null
pointers are Option none; the functions are total, which is the formal
counterpart of the shim never dereferencing a null pointer. -/

/-- Argument tuple of the on rsp user login C callback of the trader shim. -/
structure TraderLoginCbArgs where
  tradingDay : String
  loginTime : String
  brokerID : String
  userID : String
  frontID : Int
  sessionID : Int
  maxOrderRef : String
  errorId : Int
  errorMsg : String
  nRequestID : Int
  isLast : Int
deriving DecidableEq

/-- TraderSpiWrapper.OnRspUserLogin. -/
def traderWrapOnRspUserLogin (registered : Bool)
    (rec : Option RspUserLoginField) (info : Option RspInfoField)
    (nRequestID : Int) (bIsLast : Bool) : Option TraderLoginCbArgs :=
  if registered then
    some
      { tradingDay := (rec.map (·.tradingDay)).getD ""
        loginTime := (rec.map (·.loginTime)).getD ""
        brokerID := (rec.map (·.brokerID)).getD ""
        userID := (rec.map (·.userID)).getD ""
        frontID := (rec.map (·.frontID)).getD 0
        sessionID := (rec.map (·.sessionID)).getD 0
        maxOrderRef := (rec.map (·.maxOrderRef)).getD ""
        errorId := (info.map (·.errorID)).getD 0
        errorMsg := (info.map (·.errorMsg)).getD ""
        nRequestID := nRequestID
        isLast := if bIsLast then 1 else 0 }
  else none

/-- The CThostFtdcOrderField fields the trader shim forwards. -/
structure OrderField where
  brokerID : String
  investorID : String
  instrumentID : String
  orderRef : String
  userID : String
  direction : Char
  combOffsetFlag : Char
  limitPrice : Rat
  volumeTotalOriginal : Int
  volumeTraded : Int
  orderStatus : Char
  orderSysID : String
  frontID : Int
  sessionID : Int
  insertDate : String
  insertTime : String
  statusMsg : String
deriving DecidableEq

/-- Argument tuple of the on rtn order C callback of the trader shim. -/
structure RtnOrderCbArgs where
  brokerID : String
  investorID : String
  instrumentID : String
  orderRef : String
  userID : String
  direction : Char
  offsetFlag : Char
  price : Rat
  volumeTotal : Int
  volumeTraded : Int
  orderStatus : Char
  orderSysID : String
  frontID : Int
  sessionID : Int
  insertDate : String
  insertTime : String
  statusMsg : String
deriving DecidableEq

/-- TraderSpiWrapper.OnRtnOrder. -/
def traderWrapOnRtnOrder (registered : Bool) (rec : Option OrderField) :
    Option RtnOrderCbArgs :=
  if registered then
    some
      { brokerID := (rec.map (·.brokerID)).getD ""
        investorID := (rec.map (·.investorID)).getD ""
        instrumentID := (rec.map (·.instrumentID)).getD ""
        orderRef := (rec.map (·.orderRef)).getD ""
        userID := (rec.map (·.userID)).getD ""
        direction := (rec.map (·.direction)).getD '0'
        offsetFlag := (rec.map (·.combOffsetFlag)).getD '0'
        price := (rec.map (·.limitPrice)).getD 0
        volumeTotal := (rec.map (·.volumeTotalOriginal)).getD 0
        volumeTraded := (rec.map (·.volumeTraded)).getD 0
        orderStatus := (rec.map (·.orderStatus)).getD '0'
        orderSysID := (rec.map (·.orderSysID)).getD ""
        frontID := (rec.map (·.frontID)).getD 0
        sessionID := (rec.map (·.sessionID)).getD 0
        insertDate := (rec.map (·.insertDate)).getD ""
        insertTime := (rec.map (·.insertTime)).getD ""
        statusMsg := (rec.map (·.statusMsg)).getD "" }
  else none

/-- Argument tuple of the on rsp user login C callback of the market data
shim, which forwards only four record fields. -/
structure MdLoginCbArgs where
  tradingDay : String
  loginTime : String
  brokerID : String
  userID : String
  errorId : Int
  errorMsg : String
  nRequestID : Int
  isLast : Int
deriving DecidableEq

/-- MdSpiWrapper.OnRspUserLogin. -/
def mdWrapOnRspUserLogin (registered : Bool)
    (rec : Option RspUserLoginField) (info : Option RspInfoField)
    (nRequestID : Int) (bIsLast : Bool) : Option MdLoginCbArgs :=
  if registered then
    some
      { tradingDay := (rec.map (·.tradingDay)).getD ""
        loginTime := (rec.map (·.loginTime)).getD ""
        brokerID := (rec.map (·.brokerID)).getD ""
        userID := (rec.map (·.userID)).getD ""
        errorId := (info.map (·.errorID)).getD 0
        errorMsg := (info.map (·.errorMsg)).getD ""
        nRequestID := nRequestID
        isLast := if bIsLast then 1 else 0 }
  else none

/-- The CThostFtdcDepthMarketDataField fields the market data shim
forwards. -/
structure DepthMarketDataField where
  instrumentID : String
  exchangeID : String
  lastPrice : Rat
  preSettlementPrice : Rat
  preClosePrice : Rat
  preOpenInterest : Rat
  openPrice : Rat
  highestPrice : Rat
  lowestPrice : Rat
  volume : Int
  turnover : Rat
  openInterest : Rat
  closePrice : Rat
  settlementPrice : Rat
  upperLimitPrice : Rat
  lowerLimitPrice : Rat
  bidPrice1 : Rat
  bidVolume1 : Int
  askPrice1 : Rat
  askVolume1 : Int
  bidPrice2 : Rat
  bidVolume2 : Int
  askPrice2 : Rat
  askVolume2 : Int
  bidPrice3 : Rat
  bidVolume3 : Int
  askPrice3 : Rat
  askVolume3 : Int
  bidPrice4 : Rat
  bidVolume4 : Int
  askPrice4 : Rat
  askVolume4 : Int
  bidPrice5 : Rat
  bidVolume5 : Int
  askPrice5 : Rat
  askVolume5 : Int
  averagePrice : Rat
  updateTime : String
  updateMillisec : Int
  tradingDay : String
  actionDay : String
deriving DecidableEq

/-- MdSpiWrapper.OnRtnDepthMarketData: the guard requires both a registered
callback and a non null record, so a null record is dropped rather than
defaulted; when it fires, the record fields are forwarded verbatim. -/
def mdWrapOnRtnDepthMarketData (registered : Bool)
    (rec : Option DepthMarketDataField) : Option DepthMarketDataField :=
  if registered then rec else none

/-! ## Concrete fixtures used by witnesses and counterexamples -/

/-- A trader state of a live logged in session with frontID 1, sessionID 1. -/
def liveSessionState : TraderState :=
  { requestId := 0, isLogin := true, frontId := 1, sessionId := 1, maxOrderRef := 0 }

/-- A trader state with populated session identification, used to observe
what a disconnect clears. -/
def populatedState : TraderState :=
  { requestId := 5, isLogin := true, frontId := 7, sessionId := 9, maxOrderRef := 3 }

/-- A successful login response fixture. -/
def loginRspDayA : RspUserLoginField :=
  { tradingDay := "20240102", loginTime := "09:00:00", brokerID := "9999",
    userID := "000001", frontID := 1, sessionID := 100, maxOrderRef := "12" }

/-- The same login response with a different trading day only. -/
def loginRspDayB : RspUserLoginField :=
  { loginRspDayA with tradingDay := "20240103" }

/-- A small session event trace: insert, cancel, insert. -/
def sampleSessionTrace : List TraderEvent :=
  [TraderEvent.reqLimitOrder "ES2503" "CME" '0' '0' 5000 2,
   TraderEvent.reqOrderAction "ES2503" "CME" "000000000001" 1 1 AF_Delete,
   TraderEvent.reqMarketOrder "NQ2503" "CME" '1' '0' 1]

/-- A sample parameter set for the generic insert entry point. -/
def sampleInsertParams : InsertParams :=
  { instrumentID := "ES2503", exchangeID := "CME", direction := '0',
    offsetFlag := '0', price := 5000, volume := 2,
    priceType := OPT_LimitPrice, contingentCondition := CC_Immediately,
    timeCondition := TC_GFD, volumeCondition := VC_AV,
    hedgeFlag := HF_Speculation }

/-! ## Properties of the order reference rendering -/

theorem digitsVal_append (ds : List Char) (c : Char) :
    digitsVal (ds ++ [c]) = 10 * digitsVal ds + charVal c := by
  simp [digitsVal]

theorem charVal_digitChar : ∀ d, d < 10 → charVal (digitChar d) = d := by decide

theorem digitsVal_natDigitsAux (fuel n : Nat) (h : n < fuel) :
    digitsVal (natDigitsAux fuel n) = n := by
  induction fuel generalizing n with
  | zero => omega
  | succ f ih =>
      rw [natDigitsAux]
      by_cases h10 : n < 10
      · simp only [if_pos h10]
        simpa [digitsVal] using charVal_digitChar n h10
      · simp only [if_neg h10]
        have hlt : n / 10 < f := by
          have := Nat.div_lt_self (show 0 < n by omega) (show 1 < 10 by omega)
          omega
        rw [digitsVal_append, ih (n / 10) hlt,
            charVal_digitChar (n % 10) (Nat.mod_lt n (by omega))]
        omega

theorem digitsVal_natDigits (n : Nat) : digitsVal (natDigits n) = n :=
  digitsVal_natDigitsAux (n + 1) n (Nat.lt_succ_self n)

theorem digitsVal_replicate_zero_append (k : Nat) (ds : List Char) :
    digitsVal (List.replicate k '0' ++ ds) = digitsVal ds := by
  induction k with
  | zero => rfl
  | succ m ih => simpa [digitsVal, List.replicate_succ] using ih

theorem digitsVal_padZeroTo (w : Nat) (ds : List Char) :
    digitsVal (padZeroTo w ds) = digitsVal ds :=
  digitsVal_replicate_zero_append _ ds

/-- On nonnegative integers the OrderRef rendering is injective, because the
padded digit string still evaluates back to the original number. -/
theorem formatOrderRef_inj {a b : Int} (ha : 0 ≤ a) (hb : 0 ≤ b)
    (h : formatOrderRef a = formatOrderRef b) : a = b := by
  unfold formatOrderRef at h
  rw [if_neg (by omega), if_neg (by omega)] at h
  have hlist : padZeroTo 12 (natDigits a.natAbs) =
      padZeroTo 12 (natDigits b.natAbs) := by
    have := congrArg String.data h
    simpa using this
  have hval : digitsVal (padZeroTo 12 (natDigits a.natAbs)) =
      digitsVal (padZeroTo 12 (natDigits b.natAbs)) := by rw [hlist]
  rw [digitsVal_padZeroTo, digitsVal_padZeroTo, digitsVal_natDigits,
      digitsVal_natDigits] at hval
  omega

/-! ## Counter behaviour of single trader steps -/

theorem traderStep_state_of_insert (cfg : CtpConfig) (s : TraderState)
    (e : TraderEvent) (h : isInsertEvent e = true) :
    (traderStep cfg s e).1 =
      { s with maxOrderRef := s.maxOrderRef + 1, requestId := s.requestId + 1 } := by
  cases e <;> simp_all [traderStep, insertVia, isInsertEvent]

theorem traderStep_maxOrderRef_of_not_insert (cfg : CtpConfig)
    (s : TraderState) (e : TraderEvent) (h1 : isInsertEvent e = false)
    (h2 : isUserLoginEvent e = false) :
    (traderStep cfg s e).1.maxOrderRef = s.maxOrderRef := by
  cases e <;> simp_all [traderStep, insertVia, isInsertEvent, isUserLoginEvent]

theorem traderStep_requestId_mono (cfg : CtpConfig) (s : TraderState)
    (e : TraderEvent) : s.requestId ≤ (traderStep cfg s e).1.requestId := by
  cases e <;> simp [traderStep, insertVia] <;>
    first
      | omega
      | (split <;> simp <;> omega)

theorem mem_traderWireIds_step (cfg : CtpConfig) (s : TraderState)
    (e : TraderEvent) :
    ∀ i ∈ traderWireRequestIds (traderStep cfg s e).2,
      s.requestId < i ∧ i ≤ (traderStep cfg s e).1.requestId := by
  cases e <;>
    simp [traderStep, insertVia, traderWireRequestIds, traderWireId] <;>
    first
      | omega
      | (split <;> simp [traderWireRequestIds] <;> omega)

theorem traderStep_wires_short (cfg : CtpConfig) (s : TraderState)
    (e : TraderEvent) : ((traderStep cfg s e).2).length ≤ 1 := by
  cases e <;> simp [traderStep, insertVia] <;> split <;> simp

/-! ## Counter behaviour of trader runs -/

theorem runTrader_requestId_mono (cfg : CtpConfig) :
    ∀ (evs : List TraderEvent) (s : TraderState),
      s.requestId ≤ (runTrader cfg s evs).1.requestId := by
  intro evs
  induction evs with
  | nil => intro s; simp [runTrader]
  | cons e es ih =>
      intro s
      have h1 := traderStep_requestId_mono cfg s e
      have h2 := ih (traderStep cfg s e).1
      simpa [runTrader] using le_trans h1 h2

theorem mem_runTrader_wireIds (cfg : CtpConfig) :
    ∀ (evs : List TraderEvent) (s : TraderState),
      ∀ i ∈ traderWireRequestIds (runTrader cfg s evs).2,
        s.requestId < i ∧ i ≤ (runTrader cfg s evs).1.requestId := by
  intro evs
  induction evs with
  | nil => intro s i hi; simp [runTrader, traderWireRequestIds] at hi
  | cons e es ih =>
      intro s i hi
      have hsplit : traderWireRequestIds (runTrader cfg s (e :: es)).2 =
          traderWireRequestIds (traderStep cfg s e).2 ++
            traderWireRequestIds (runTrader cfg (traderStep cfg s e).1 es).2 := by
        simp [runTrader, traderWireRequestIds]
      rw [hsplit, List.mem_append] at hi
      have hrun1 : (runTrader cfg s (e :: es)).1 =
          (runTrader cfg (traderStep cfg s e).1 es).1 := by
        simp [runTrader]
      rcases hi with hi | hi
      · have h1 := mem_traderWireIds_step cfg s e i hi
        have h2 := runTrader_requestId_mono cfg es (traderStep cfg s e).1
        exact ⟨h1.1, by rw [hrun1]; exact le_trans h1.2 h2⟩
      · have h1 := ih (traderStep cfg s e).1 i hi
        have h2 := traderStep_requestId_mono cfg s e
        exact ⟨by omega, by rw [hrun1]; exact h1.2⟩

theorem runTrader_wireIds_pairwise (cfg : CtpConfig) :
    ∀ (evs : List TraderEvent) (s : TraderState),
      (traderWireRequestIds (runTrader cfg s evs).2).Pairwise (· < ·) := by
  intro evs
  induction evs with
  | nil => intro s; simp [runTrader, traderWireRequestIds]
  | cons e es ih =>
      intro s
      have hsplit : traderWireRequestIds (runTrader cfg s (e :: es)).2 =
          traderWireRequestIds (traderStep cfg s e).2 ++
            traderWireRequestIds (runTrader cfg (traderStep cfg s e).1 es).2 := by
        simp [runTrader, traderWireRequestIds]
      rw [hsplit]
      refine List.pairwise_append.2 ⟨?_, ih _, ?_⟩
      · have hlen : ((traderStep cfg s e).2).length ≤ 1 :=
          traderStep_wires_short cfg s e
        match hw : (traderStep cfg s e).2 with
        | [] => simp [traderWireRequestIds]
        | [w] => simp [traderWireRequestIds]
        | w1 :: w2 :: ws => rw [hw] at hlen; simp at hlen
      · intro a ha b hb
        have h1 := mem_traderWireIds_step cfg s e a ha
        have h2 := mem_runTrader_wireIds cfg es (traderStep cfg s e).1 b hb
        omega

/-! ## Order reference behaviour of trader runs -/

theorem mem_assignedOrderRefs_gt (cfg : CtpConfig) :
    ∀ (evs : List TraderEvent) (s : TraderState),
      (∀ e ∈ evs, isUserLoginEvent e = false) →
      ∀ r ∈ assignedOrderRefs cfg s evs, s.maxOrderRef < r := by
  intro evs
  induction evs with
  | nil => intro s _ r hr; simp [assignedOrderRefs] at hr
  | cons e es ih =>
      intro s h r hr
      have he : isUserLoginEvent e = false := h e (by simp)
      have hes : ∀ x ∈ es, isUserLoginEvent x = false := by
        intro x hx
        exact h x (by simp [hx])
      simp only [assignedOrderRefs, List.mem_append] at hr
      rcases hr with hr | hr
      · by_cases hi : isInsertEvent e
        · simp [hi] at hr
          omega
        · simp [hi] at hr
      · have hrec := ih (traderStep cfg s e).1 hes r hr
        by_cases hi : isInsertEvent e
        · rw [traderStep_state_of_insert cfg s e hi] at hrec
          simp at hrec
          omega
        · have hfix := traderStep_maxOrderRef_of_not_insert cfg s e
            (by simpa using hi) he
          omega

theorem assignedOrderRefs_pairwise (cfg : CtpConfig) :
    ∀ (evs : List TraderEvent) (s : TraderState),
      (∀ e ∈ evs, isUserLoginEvent e = false) →
      (assignedOrderRefs cfg s evs).Pairwise (· < ·) := by
  intro evs
  induction evs with
  | nil => intro s _; simp [assignedOrderRefs]
  | cons e es ih =>
      intro s h
      have he : isUserLoginEvent e = false := h e (by simp)
      have hes : ∀ x ∈ es, isUserLoginEvent x = false := by
        intro x hx
        exact h x (by simp [hx])
      simp only [assignedOrderRefs]
      refine List.pairwise_append.2 ⟨?_, ih _ hes, ?_⟩
      · by_cases hi : isInsertEvent e <;> simp [hi]
      · intro a ha b hb
        by_cases hi : isInsertEvent e
        · simp [hi] at ha
          have hgt := mem_assignedOrderRefs_gt cfg es (traderStep cfg s e).1 hes b hb
          rw [traderStep_state_of_insert cfg s e hi] at hgt
          simp at hgt
          omega
        · simp [hi] at ha

theorem wireInsertRefs_append (ws1 ws2 : List TraderWire) :
    wireInsertRefs (ws1 ++ ws2) = wireInsertRefs ws1 ++ wireInsertRefs ws2 := by
  induction ws1 with
  | nil => rfl
  | cons w ws ih => cases w <;> simp [wireInsertRefs, ih]

theorem wireInsertRefs_step (cfg : CtpConfig) (s : TraderState)
    (e : TraderEvent) :
    wireInsertRefs (traderStep cfg s e).2 =
      if isInsertEvent e then [formatOrderRef (s.maxOrderRef + 1)] else [] := by
  cases e <;>
    simp [traderStep, insertVia, wireInsertRefs, isInsertEvent,
      reqOrderInsertField, reqStopOrderField] <;>
    split <;> simp [wireInsertRefs]

theorem wireInsertRefs_runTrader (cfg : CtpConfig) :
    ∀ (evs : List TraderEvent) (s : TraderState),
      wireInsertRefs (runTrader cfg s evs).2 =
        (assignedOrderRefs cfg s evs).map formatOrderRef := by
  intro evs
  induction evs with
  | nil => simp [runTrader, assignedOrderRefs, wireInsertRefs]
  | cons e es ih =>
      intro s
      have hsplit : (runTrader cfg s (e :: es)).2 =
          (traderStep cfg s e).2 ++ (runTrader cfg (traderStep cfg s e).1 es).2 := by
        simp [runTrader]
      rw [hsplit, wireInsertRefs_append, ih, assignedOrderRefs, List.map_append,
        wireInsertRefs_step]
      by_cases hi : isInsertEvent e <;> simp [hi]

/-! ## Counter behaviour of market data runs -/

theorem mdStep_requestId_mono (cfg : CtpConfig) (s : MdState) (e : MdEvent) :
    s.requestId ≤ (mdStep cfg s e).1.requestId := by
  cases e <;> simp [mdStep] <;>
    first
      | omega
      | (split <;> simp <;> omega)

theorem mem_mdWireIds_step (cfg : CtpConfig) (s : MdState) (e : MdEvent) :
    ∀ i ∈ mdWireRequestIds (mdStep cfg s e).2,
      s.requestId < i ∧ i ≤ (mdStep cfg s e).1.requestId := by
  cases e <;> simp [mdStep, mdWireRequestIds] <;>
    first
      | omega
      | (split <;> simp [mdWireRequestIds] <;> omega)

theorem runMd_requestId_mono (cfg : CtpConfig) :
    ∀ (evs : List MdEvent) (s : MdState),
      s.requestId ≤ (runMd cfg s evs).1.requestId := by
  intro evs
  induction evs with
  | nil => intro s; simp [runMd]
  | cons e es ih =>
      intro s
      have h1 := mdStep_requestId_mono cfg s e
      have h2 := ih (mdStep cfg s e).1
      simpa [runMd] using le_trans h1 h2

theorem mdWireRequestIds_append (ws1 ws2 : List MdWire) :
    mdWireRequestIds (ws1 ++ ws2) = mdWireRequestIds ws1 ++ mdWireRequestIds ws2 := by
  induction ws1 with
  | nil => rfl
  | cons w ws ih => cases w <;> simp [mdWireRequestIds, ih]

theorem mem_runMd_wireIds (cfg : CtpConfig) :
    ∀ (evs : List MdEvent) (s : MdState),
      ∀ i ∈ mdWireRequestIds (runMd cfg s evs).2,
        s.requestId < i ∧ i ≤ (runMd cfg s evs).1.requestId := by
  intro evs
  induction evs with
  | nil => intro s i hi; simp [runMd, mdWireRequestIds] at hi
  | cons e es ih =>
      intro s i hi
      have hsplit : mdWireRequestIds (runMd cfg s (e :: es)).2 =
          mdWireRequestIds (mdStep cfg s e).2 ++
            mdWireRequestIds (runMd cfg (mdStep cfg s e).1 es).2 := by
        simp [runMd, mdWireRequestIds_append]
      rw [hsplit, List.mem_append] at hi
      have hrun1 : (runMd cfg s (e :: es)).1 =
          (runMd cfg (mdStep cfg s e).1 es).1 := by
        simp [runMd]
      rcases hi with hi | hi
      · have h1 := mem_mdWireIds_step cfg s e i hi
        have h2 := runMd_requestId_mono cfg es (mdStep cfg s e).1
        exact ⟨h1.1, by rw [hrun1]; exact le_trans h1.2 h2⟩
      · have h1 := ih (mdStep cfg s e).1 i hi
        have h2 := mdStep_requestId_mono cfg s e
        exact ⟨by omega, by rw [hrun1]; exact h1.2⟩

theorem mdStep_wires_short (cfg : CtpConfig) (s : MdState) (e : MdEvent) :
    ((mdStep cfg s e).2).length ≤ 1 := by
  cases e <;> simp [mdStep] <;> split <;> simp

theorem runMd_wireIds_pairwise (cfg : CtpConfig) :
    ∀ (evs : List MdEvent) (s : MdState),
      (mdWireRequestIds (runMd cfg s evs).2).Pairwise (· < ·) := by
  intro evs
  induction evs with
  | nil => intro s; simp [runMd, mdWireRequestIds]
  | cons e es ih =>
      intro s
      have hsplit : mdWireRequestIds (runMd cfg s (e :: es)).2 =
          mdWireRequestIds (mdStep cfg s e).2 ++
            mdWireRequestIds (runMd cfg (mdStep cfg s e).1 es).2 := by
        simp [runMd, mdWireRequestIds_append]
      rw [hsplit]
      refine List.pairwise_append.2 ⟨?_, ih _, ?_⟩
      · have hlen := mdStep_wires_short cfg s e
        match hw : (mdStep cfg s e).2 with
        | [] => simp [mdWireRequestIds]
        | [w] => cases w <;> simp [mdWireRequestIds]
        | w1 :: w2 :: ws => rw [hw] at hlen; simp at hlen
      · intro a ha b hb
        have h1 := mem_mdWireIds_step cfg s e a ha
        have h2 := mem_runMd_wireIds cfg es (mdStep cfg s e).1 b hb
        omega

/-! ## Claim theorems -/

/-- Claim C1: within one session (no login response reseeding the counter,
nonnegative seed), the local order references assigned by successive insert
calls are strictly increasing as integers, and the OrderRef strings carried
by the emitted order insert requests are pairwise distinct, cancellations in
between notwithstanding. -/
theorem c1_order_refs_strictly_increasing (cfg : CtpConfig) (s : TraderState)
    (evs : List TraderEvent)
    (hsession : ∀ e ∈ evs, isUserLoginEvent e = false)
    (hseed : 0 ≤ s.maxOrderRef) :
    (assignedOrderRefs cfg s evs).Pairwise (· < ·) ∧
      (wireInsertRefs (runTrader cfg s evs).2).Pairwise (· ≠ ·) := by
  refine ⟨assignedOrderRefs_pairwise cfg evs s hsession, ?_⟩
  rw [wireInsertRefs_runTrader, List.pairwise_map]
  have hpos : ∀ r ∈ assignedOrderRefs cfg s evs, 0 < r := by
    intro r hr
    have := mem_assignedOrderRefs_gt cfg evs s hsession r hr
    omega
  have hlt := assignedOrderRefs_pairwise cfg evs s hsession
  refine List.Pairwise.imp_of_mem ?_ hlt
  intro a b ha hb hab heq
  have := formatOrderRef_inj (le_of_lt (hpos a ha)) (le_of_lt (hpos b hb)) heq
  omega

/-- Witness for C1 at a concrete trace: limit insert, cancel, market
insert from the freshly constructed trader state. -/
theorem c1_witness :
    (∀ e ∈ sampleSessionTrace, isUserLoginEvent e = false) ∧
      0 ≤ initTraderState.maxOrderRef ∧
      ((assignedOrderRefs defaultConfig initTraderState sampleSessionTrace).Pairwise (· < ·) ∧
        (wireInsertRefs (runTrader defaultConfig initTraderState sampleSessionTrace).2).Pairwise (· ≠ ·)) :=
  ⟨by decide, by decide,
    c1_order_refs_strictly_increasing defaultConfig initTraderState
      sampleSessionTrace (by decide) (by decide)⟩

/-- Claim C2 counterexample: with a live session at frontID 1, sessionID 1,
a cancel by local reference recorded under frontID 2, sessionID 3 is still
handed to the transport (one wire request, carrying the mismatched
identifiers), instead of failing locally without a network call. -/
theorem c2_counterexample :
    liveSessionState.frontId ≠ 2 ∧ liveSessionState.sessionId ≠ 3 ∧
      (traderStep defaultConfig liveSessionState
        (TraderEvent.reqOrderAction "ES2503" "CME" "000000000001" 2 3 AF_Delete)).2 =
        [TraderWire.orderAction
          { brokerID := "9999", investorID := "000001",
            instrumentID := "ES2503", exchangeID := "CME",
            orderRef := "000000000001", orderSysID := "",
            frontID := 2, sessionID := 3, actionFlag := AF_Delete,
            limitPrice := 0, volumeChange := 0 } 1] := by
  refine ⟨by decide, by decide, rfl⟩

/-- Claim C2 (amended): the order action entry point performs no local
session validation: even when the recorded frontID or sessionID differs
from the live session values, the request is built from the caller supplied
identifiers and handed to the transport. -/
theorem c2_mismatched_cancel_still_sent (cfg : CtpConfig) (s : TraderState)
    (inst exch oref : String) (frontId sessionId : Int) (flag : Char)
    (hmismatch : frontId ≠ s.frontId ∨ sessionId ≠ s.sessionId) :
    (traderStep cfg s
        (TraderEvent.reqOrderAction inst exch oref frontId sessionId flag)).2 =
      [TraderWire.orderAction
        { brokerID := cfg.brokerID, investorID := cfg.investorID,
          instrumentID := inst, exchangeID := exch, orderRef := oref,
          orderSysID := "", frontID := frontId, sessionID := sessionId,
          actionFlag := flag, limitPrice := 0, volumeChange := 0 }
        (s.requestId + 1)] :=
  rfl

/-- Witness for C2 (amended) at a concrete mismatched cancel. -/
theorem c2_witness :
    ((2 : Int) ≠ liveSessionState.frontId ∨ (3 : Int) ≠ liveSessionState.sessionId) ∧
      (traderStep defaultConfig liveSessionState
          (TraderEvent.reqOrderAction "ES2503" "CME" "000000000001" 2 3 AF_Delete)).2 =
        [TraderWire.orderAction
          { brokerID := defaultConfig.brokerID,
            investorID := defaultConfig.investorID,
            instrumentID := "ES2503", exchangeID := "CME",
            orderRef := "000000000001", orderSysID := "",
            frontID := 2, sessionID := 3, actionFlag := AF_Delete,
            limitPrice := 0, volumeChange := 0 }
          (liveSessionState.requestId + 1)] :=
  ⟨by decide,
    c2_mismatched_cancel_still_sent defaultConfig liveSessionState
      "ES2503" "CME" "000000000001" 2 3 AF_Delete (by decide)⟩

/-- Claim C3 counterexample: a disconnect event delivered to a session whose
frontID is 7 and sessionID is 9 leaves both values in place instead of
clearing them. -/
theorem c3_counterexample :
    (traderStep defaultConfig populatedState (TraderEvent.frontDisconnected 4097)).1.frontId = 7 ∧
      (traderStep defaultConfig populatedState (TraderEvent.frontDisconnected 4097)).1.sessionId = 9 ∧
      (7 : Int) ≠ 0 ∧ (9 : Int) ≠ 0 := by
  decide

/-- Claim C3 (amended): on a disconnect event both sessions merely drop the
login flag; frontID, sessionID and the two counters keep their values, no
wire request is emitted, and no pending request bookkeeping exists in the
state to resolve. -/
theorem c3_disconnect_only_clears_login_flag (cfg : CtpConfig)
    (s : TraderState) (ms : MdState) (reason : Int) :
    traderStep cfg s (TraderEvent.frontDisconnected reason) =
      ({ s with isLogin := false }, []) ∧
      mdStep cfg ms (MdEvent.frontDisconnected reason) =
        ({ ms with isLogin := false }, []) :=
  ⟨rfl, rfl⟩

/-- Claim C4 counterexample: a subscribe call before login returns minus one
and leaves the state exactly as it was, so the request is discarded rather
than recorded; and a later successful login emits no subscription wire
requests, so nothing is replayed. -/
theorem c4_counterexample :
    mdStep defaultConfig initMdState (MdEvent.subscribeMarketData ["ES2503"]) =
        (initMdState, []) ∧
      mdSubscribeRet (fun _ => 0) initMdState ["ES2503"] = -1 ∧
      (mdStep defaultConfig { requestId := 1, isLogin := false }
          (MdEvent.rspUserLogin loginRspDayA none)).2 = [] := by
  refine ⟨by decide, by decide, by decide⟩

/-- Claim C4 (amended): a subscribe call while not logged in is rejected
with minus one and discarded entirely: no wire request, no recorded desired
set, and the post login path emits no replay; while logged in the wire
request with the hard coded CME exchange is issued immediately and the
state is untouched. -/
theorem c4_subscribe_only_when_logged_in (cfg : CtpConfig) (s : MdState)
    (insts : List String) (oracle : MdWire → Int) (rsp : RspUserLoginField)
    (info : Option RspInfoField) :
    mdStep cfg s (MdEvent.subscribeMarketData insts) =
        (if s.isLogin then (s, [MdWire.subscribe (mdSubscribeArray insts)])
         else (s, [])) ∧
      mdSubscribeRet oracle s insts =
        (if s.isLogin then oracle (MdWire.subscribe (mdSubscribeArray insts))
         else -1) ∧
      mdStep cfg s (MdEvent.rspUserLogin rsp info) =
        (if rspHasError info then (s, [])
         else ({ s with isLogin := true }, [])) := by
  refine ⟨?_, rfl, rfl⟩
  by_cases h : s.isLogin <;> simp [mdStep, h]

/-- Claim C5 counterexample: no parameter combination of the shared order
insert path reproduces the request built by the stop order path, because
the shared path never sets the StopPrice field. -/
theorem c5_counterexample :
    ¬ ∃ p : InsertParams,
        reqOrderInsertField defaultConfig 1 p =
          reqStopOrderField defaultConfig 1 "ES2503" "CME" '0' '0' 5000 4990 2 := by
  rintro ⟨p, h⟩
  have h2 := congrArg InputOrderField.stopPrice h
  simp [reqOrderInsertField, reqStopOrderField] at h2

/-- Claim C5 (amended): market orders are sent with zero price and the any
price type; the limit, fill or kill and fill and kill variants are pure
parameter presets of the shared insert path; the stop variant, however, is
built by a second construction path whose output differs from the matching
preset of the shared path exactly in the StopPrice field. -/
theorem c5_variants_presets_stop_separate (cfg : CtpConfig) (s : TraderState)
    (inst exch : String) (dir off : Char) (price stopPrice : Rat) (vol : Int) :
    traderStep cfg s (TraderEvent.reqMarketOrder inst exch dir off vol) =
        insertVia cfg s
          { instrumentID := inst, exchangeID := exch, direction := dir,
            offsetFlag := off, price := 0, volume := vol,
            priceType := OPT_AnyPrice, contingentCondition := CC_Immediately,
            timeCondition := TC_GFD, volumeCondition := VC_AV,
            hedgeFlag := HF_Speculation } ∧
      (∀ ref : Int, ∀ p : InsertParams,
        p.priceType = OPT_AnyPrice → p.price = 0 →
          (reqOrderInsertField cfg ref p).limitPrice = 0 ∧
            (reqOrderInsertField cfg ref p).orderPriceType = OPT_AnyPrice) ∧
      traderStep cfg s (TraderEvent.reqLimitOrder inst exch dir off price vol) =
        insertVia cfg s
          { instrumentID := inst, exchangeID := exch, direction := dir,
            offsetFlag := off, price := price, volume := vol,
            priceType := OPT_LimitPrice, contingentCondition := CC_Immediately,
            timeCondition := TC_GFD, volumeCondition := VC_AV,
            hedgeFlag := HF_Speculation } ∧
      traderStep cfg s (TraderEvent.reqFOKOrder inst exch dir off price vol) =
        insertVia cfg s
          { instrumentID := inst, exchangeID := exch, direction := dir,
            offsetFlag := off, price := price, volume := vol,
            priceType := OPT_LimitPrice, contingentCondition := CC_Immediately,
            timeCondition := TC_IOC, volumeCondition := VC_CV,
            hedgeFlag := HF_Speculation } ∧
      traderStep cfg s (TraderEvent.reqFAKOrder inst exch dir off price vol) =
        insertVia cfg s
          { instrumentID := inst, exchangeID := exch, direction := dir,
            offsetFlag := off, price := price, volume := vol,
            priceType := OPT_LimitPrice, contingentCondition := CC_Immediately,
            timeCondition := TC_IOC, volumeCondition := VC_AV,
            hedgeFlag := HF_Speculation } ∧
      reqStopOrderField cfg (s.maxOrderRef + 1) inst exch dir off price
          stopPrice vol =
        { reqOrderInsertField cfg (s.maxOrderRef + 1)
            { instrumentID := inst, exchangeID := exch, direction := dir,
              offsetFlag := off, price := price, volume := vol,
              priceType := OPT_LimitPrice, contingentCondition := CC_Touch,
              timeCondition := TC_GFD, volumeCondition := VC_AV,
              hedgeFlag := HF_Speculation } with
          stopPrice := stopPrice } := by
  refine ⟨rfl, ?_, rfl, rfl, rfl, rfl⟩
  intro ref p hb hp
  exact ⟨by simp [reqOrderInsertField, hp], by simp [reqOrderInsertField, hb]⟩

/-- Witness for C5 (amended) at concrete arguments. -/
theorem c5_witness :
    traderStep defaultConfig initTraderState
        (TraderEvent.reqMarketOrder "ES2503" "CME" '0' '0' 2) =
      insertVia defaultConfig initTraderState
        { instrumentID := "ES2503", exchangeID := "CME", direction := '0',
          offsetFlag := '0', price := 0, volume := 2,
          priceType := OPT_AnyPrice, contingentCondition := CC_Immediately,
          timeCondition := TC_GFD, volumeCondition := VC_AV,
          hedgeFlag := HF_Speculation } :=
  (c5_variants_presets_stop_separate defaultConfig initTraderState
    "ES2503" "CME" '0' '0' 5000 4990 2).1

/-- Claim C6 counterexample: two successful login responses that differ only
in the trading day produce identical trader states, so the trading day is
not retained in the session state. -/
theorem c6_counterexample :
    (traderStep defaultConfig initTraderState
        (TraderEvent.rspUserLogin loginRspDayA none)).1 =
      (traderStep defaultConfig initTraderState
        (TraderEvent.rspUserLogin loginRspDayB none)).1 ∧
      loginRspDayA.tradingDay ≠ loginRspDayB.tradingDay := by
  decide

/-- Claim C6 (amended): a successful login response populates frontID and
sessionID, stores atoi of the reported MaxOrderRef as the seed of the order
reference allocator (the trading day is only printed, not retained), and a
subsequent insert assigns seed plus one, strictly greater than any
reference bounded by the reported maximum. -/
theorem c6_login_seeds_allocator (cfg : CtpConfig) (s : TraderState)
    (rsp : RspUserLoginField) (info : Option RspInfoField)
    (hok : rspHasError info = false) (prior : Int)
    (hprior : prior ≤ atoi rsp.maxOrderRef) (p : InsertParams) :
    (traderStep cfg s (TraderEvent.rspUserLogin rsp info)).1 =
        { s with frontId := rsp.frontID, sessionId := rsp.sessionID,
                 maxOrderRef := atoi rsp.maxOrderRef, isLogin := true } ∧
      assignedOrderRefs cfg
          (traderStep cfg s (TraderEvent.rspUserLogin rsp info)).1
          [TraderEvent.reqOrderInsert p] =
        [atoi rsp.maxOrderRef + 1] ∧
      prior < atoi rsp.maxOrderRef + 1 := by
  have hstep : (traderStep cfg s (TraderEvent.rspUserLogin rsp info)).1 =
      { s with frontId := rsp.frontID, sessionId := rsp.sessionID,
               maxOrderRef := atoi rsp.maxOrderRef, isLogin := true } := by
    simp [traderStep, hok]
  refine ⟨hstep, ?_, by omega⟩
  rw [hstep]
  simp [assignedOrderRefs, isInsertEvent]

/-- Witness for C6 (amended) at a concrete successful login reporting
MaxOrderRef 12. -/
theorem c6_witness :
    rspHasError none = false ∧ (12 : Int) ≤ atoi loginRspDayA.maxOrderRef ∧
      ((traderStep defaultConfig initTraderState
            (TraderEvent.rspUserLogin loginRspDayA none)).1 =
          { initTraderState with
              frontId := loginRspDayA.frontID,
              sessionId := loginRspDayA.sessionID,
              maxOrderRef := atoi loginRspDayA.maxOrderRef, isLogin := true } ∧
        assignedOrderRefs defaultConfig
            (traderStep defaultConfig initTraderState
              (TraderEvent.rspUserLogin loginRspDayA none)).1
            [TraderEvent.reqOrderInsert sampleInsertParams] =
          [atoi loginRspDayA.maxOrderRef + 1] ∧
        (12 : Int) < atoi loginRspDayA.maxOrderRef + 1) :=
  ⟨by decide, by decide,
    c6_login_seeds_allocator defaultConfig initTraderState loginRspDayA none
      (by decide) 12 (by decide) sampleInsertParams⟩

/-- Claim C7 counterexample: the trader session and the market data session
keep independent request identifier counters, both starting at zero, so the
very first request of each session carries identifier one: the identifiers
are not process unique. -/
theorem c7_counterexample :
    traderWireRequestIds
        (traderStep defaultConfig initTraderState TraderEvent.frontConnected).2 =
        [1] ∧
      mdWireRequestIds
        (mdStep defaultConfig initMdState MdEvent.frontConnected).2 = [1] := by
  decide

/-- Claim C7 (amended): within each api object the request identifiers of
all requests handed to the transport are strictly increasing and never
reused, across arbitrary event sequences including disconnect and reconnect
cycles, for the trader session and the market data session alike; but the
two sessions draw from independent counters. -/
theorem c7_request_ids_monotone_per_session (cfg : CtpConfig)
    (s : TraderState) (evs : List TraderEvent) (ms : MdState)
    (mevs : List MdEvent) :
    (traderWireRequestIds (runTrader cfg s evs).2).Pairwise (· < ·) ∧
      (mdWireRequestIds (runMd cfg ms mevs).2).Pairwise (· < ·) :=
  ⟨runTrader_wireIds_pairwise cfg evs s, runMd_wireIds_pairwise cfg mevs ms⟩

/-- Claim C8: an authentication response carrying a non zero error code does
not stop the trader session: the handler still sends the user login request
with the next request identifier. -/
theorem c8_auth_failure_still_logs_in (cfg : CtpConfig) (s : TraderState)
    (info : RspInfoField) (herr : info.errorID ≠ 0) :
    (traderStep cfg s (TraderEvent.rspAuthenticate (some info))).2 =
        [TraderWire.userLogin
          { brokerID := cfg.brokerID, userID := cfg.investorID,
            password := cfg.password } (s.requestId + 1)] ∧
      (traderStep cfg s (TraderEvent.rspAuthenticate (some info))).1 =
        { s with requestId := s.requestId + 1 } :=
  ⟨rfl, rfl⟩

/-- Witness for C8 at a concrete failed authentication response. -/
theorem c8_witness :
    (3 : Int) ≠ 0 ∧
      ((traderStep defaultConfig initTraderState
            (TraderEvent.rspAuthenticate
              (some { errorID := 3, errorMsg := "CTP:no authority" }))).2 =
          [TraderWire.userLogin
            { brokerID := defaultConfig.brokerID,
              userID := defaultConfig.investorID,
              password := defaultConfig.password }
            (initTraderState.requestId + 1)] ∧
        (traderStep defaultConfig initTraderState
            (TraderEvent.rspAuthenticate
              (some { errorID := 3, errorMsg := "CTP:no authority" }))).1 =
          { initTraderState with requestId := initTraderState.requestId + 1 }) :=
  ⟨by decide,
    c8_auth_failure_still_logs_in defaultConfig initTraderState
      { errorID := 3, errorMsg := "CTP:no authority" } (by decide)⟩

/-- Claim C9: an insert whose send is synchronously rejected by the
transport still consumes one order reference and one request identifier:
both counters are incremented before the send and never rolled back, and in
the rest of the session no later request reuses either consumed value. -/
theorem c9_rejected_insert_consumes_counters (cfg : CtpConfig)
    (oracle : TraderWire → Int) (s : TraderState) (e : TraderEvent)
    (hins : isInsertEvent e = true)
    (hrej : traderInvokeRet oracle cfg s e ≠ 0) :
    (traderStep cfg s e).1.maxOrderRef = s.maxOrderRef + 1 ∧
      (traderStep cfg s e).1.requestId = s.requestId + 1 ∧
      (∀ evs : List TraderEvent,
        (∀ x ∈ evs, isUserLoginEvent x = false) →
        ∀ r ∈ assignedOrderRefs cfg (traderStep cfg s e).1 evs,
          s.maxOrderRef + 1 < r) ∧
      (∀ evs : List TraderEvent,
        ∀ i ∈ traderWireRequestIds (runTrader cfg (traderStep cfg s e).1 evs).2,
          s.requestId + 1 < i) := by
  have hstate := traderStep_state_of_insert cfg s e hins
  refine ⟨by rw [hstate], by rw [hstate], ?_, ?_⟩
  · intro evs hevs r hr
    have := mem_assignedOrderRefs_gt cfg evs _ hevs r hr
    rw [hstate] at this
    simpa using this
  · intro evs i hi
    have := (mem_runTrader_wireIds cfg evs _ i hi).1
    rw [hstate] at this
    simpa using this

/-- Witness for C9: a market insert against a transport oracle that rejects
every request with minus one. -/
theorem c9_witness :
    isInsertEvent (TraderEvent.reqMarketOrder "ES2503" "CME" '0' '0' 2) = true ∧
      traderInvokeRet (fun _ => -1) defaultConfig initTraderState
          (TraderEvent.reqMarketOrder "ES2503" "CME" '0' '0' 2) ≠ 0 ∧
      ((traderStep defaultConfig initTraderState
            (TraderEvent.reqMarketOrder "ES2503" "CME" '0' '0' 2)).1.maxOrderRef =
          initTraderState.maxOrderRef + 1 ∧
        (traderStep defaultConfig initTraderState
            (TraderEvent.reqMarketOrder "ES2503" "CME" '0' '0' 2)).1.requestId =
          initTraderState.requestId + 1 ∧
        (∀ evs : List TraderEvent,
          (∀ x ∈ evs, isUserLoginEvent x = false) →
          ∀ r ∈ assignedOrderRefs defaultConfig
              (traderStep defaultConfig initTraderState
                (TraderEvent.reqMarketOrder "ES2503" "CME" '0' '0' 2)).1 evs,
            initTraderState.maxOrderRef + 1 < r) ∧
        (∀ evs : List TraderEvent,
          ∀ i ∈ traderWireRequestIds
              (runTrader defaultConfig
                (traderStep defaultConfig initTraderState
                  (TraderEvent.reqMarketOrder "ES2503" "CME" '0' '0' 2)).1 evs).2,
            initTraderState.requestId + 1 < i)) :=
  ⟨by decide, by decide,
    c9_rejected_insert_consumes_counters defaultConfig (fun _ => -1)
      initTraderState (TraderEvent.reqMarketOrder "ES2503" "CME" '0' '0' 2)
      (by decide) (by decide)⟩

/-- Claim C10 counterexample: a depth market data return with a null record
is dropped by the market data shim even when a callback is registered,
instead of being delivered with defaulted fields. -/
theorem c10_counterexample :
    mdWrapOnRtnDepthMarketData true none = none :=
  rfl

/-- Claim C10 (amended): the response and order return callbacks of the shim
substitute empty strings and zero defaults for null record or error
pointers and still invoke the registered callback, and every event without
a registered callback is dropped; the depth market data return is the
exception: its guard also requires a non null record, so a null record is
dropped rather than defaulted.  Totality of these functions over optional
inputs is the model counterpart of never dereferencing a null pointer. -/
theorem c10_shim_null_handling (r : Int) (l : Bool)
    (rec : RspUserLoginField) (d : DepthMarketDataField)
    (oinfo : Option RspInfoField) (orec : Option RspUserLoginField)
    (oord : Option OrderField) (odep : Option DepthMarketDataField) :
    traderWrapOnRspUserLogin true none none r l =
        some { tradingDay := "", loginTime := "", brokerID := "", userID := "",
               frontID := 0, sessionID := 0, maxOrderRef := "", errorId := 0,
               errorMsg := "", nRequestID := r,
               isLast := if l then 1 else 0 } ∧
      traderWrapOnRspUserLogin true (some rec) none r l =
        some { tradingDay := rec.tradingDay, loginTime := rec.loginTime,
               brokerID := rec.brokerID, userID := rec.userID,
               frontID := rec.frontID, sessionID := rec.sessionID,
               maxOrderRef := rec.maxOrderRef, errorId := 0, errorMsg := "",
               nRequestID := r, isLast := if l then 1 else 0 } ∧
      traderWrapOnRspUserLogin false orec oinfo r l = none ∧
      traderWrapOnRtnOrder true none =
        some { brokerID := "", investorID := "", instrumentID := "",
               orderRef := "", userID := "", direction := '0',
               offsetFlag := '0', price := 0, volumeTotal := 0,
               volumeTraded := 0, orderStatus := '0', orderSysID := "",
               frontID := 0, sessionID := 0, insertDate := "",
               insertTime := "", statusMsg := "" } ∧
      traderWrapOnRtnOrder false oord = none ∧
      mdWrapOnRspUserLogin true none none r l =
        some { tradingDay := "", loginTime := "", brokerID := "", userID := "",
               errorId := 0, errorMsg := "", nRequestID := r,
               isLast := if l then 1 else 0 } ∧
      mdWrapOnRspUserLogin false orec oinfo r l = none ∧
      mdWrapOnRtnDepthMarketData true (some d) = some d ∧
      mdWrapOnRtnDepthMarketData false odep = none :=
  ⟨rfl, rfl, rfl, rfl, rfl, rfl, rfl, rfl, rfl⟩

end CTP
